import Mathlib

/-!
Verification development for the regulatory-digest fetch/extract/gate core
(`app/fetch.py`).  The Python source is shallowly embedded: pure helpers
become Lean functions; the HTML/PDF parsing boundary (lxml, trafilatura,
pdfminer) is abstracted as input data structures carrying exactly the
values the corresponding xpath/extract calls would return; the HTTP
transport is modelled as an oracle giving the outcome of each attempt.
Timestamps are modelled as `Int` seconds (timezone-aware datetimes compare
by their UTC instants); float backoff arithmetic is modelled over `ℚ`
with the default base 0.8 as 4/5.
-/

namespace RegDigest

/-! ## Config knobs (defaults from `app/fetch.py` lines 46-53) -/

def MIN_TEXT_LENGTH : Nat := 600
def MAX_AGE_DAYS : Nat := 7
def HTTP_RETRIES : Nat := 3
def HTTP_BACKOFF_BASE : ℚ := 4 / 5

/-- The `EVERGREEN_HEADER_DOMAINS` set from fetch.py line 79. -/
def EVERGREEN_HEADER_DOMAINS : List String := ["www.iso.org", "iso.org"]

/-- The `NON_EN_PATH_SEGMENTS` list from fetch.py lines 82-86. -/
def NON_EN_PATH_SEGMENTS : List String :=
  ["/fr/", "/de/", "/es/", "/it/", "/pt/", "/bg/", "/pl/", "/ru/",
   "/nl/", "/cs/", "/da/", "/fi/", "/sv/", "/ro/", "/sk/", "/sl/",
   "/lt/", "/lv/", "/et/", "/el/", "/hu/", "/ga/", "/mt/"]

/-! ## String helpers mirroring the Python string operations -/

/-- Does the needle occur at the head of the haystack (char lists)? -/
def chHead : List Char → List Char → Bool
  | [], _ => true
  | _ :: _, [] => false
  | a :: as, b :: bs => a == b && chHead as bs

/-- Does the needle occur anywhere in the haystack?  Models Python `in`. -/
def chSub (needle : List Char) : List Char → Bool
  | [] => needle.isEmpty
  | c :: rest => chHead needle (c :: rest) || chSub needle rest

/-- Python `needle in hay` on strings. -/
def strHas (hay needle : String) : Bool := chSub needle.toList hay.toList

/-- Python `s.startswith(p)`. -/
def strStarts (s p : String) : Bool := chHead p.toList s.toList

/-- Python `s.endswith(suf)`. -/
def strEnds (s suf : String) : Bool := chHead suf.toList.reverse s.toList.reverse

/-- Python `s.lower()` (ASCII-relevant part). -/
def lowerStr (s : String) : String := String.mk (s.toList.map Char.toLower)

/-- Python `s.rstrip("/")`. -/
def rstripSlash (s : String) : String :=
  String.mk (s.toList.reverse.dropWhile (fun c => c == '/')).reverse

/-- Python `s.strip()` (whitespace at both ends). -/
def pyStrip (s : String) : String :=
  String.mk (((s.toList.dropWhile Char.isWhitespace).reverse.dropWhile
    Char.isWhitespace).reverse)

/-- Python `s.split("#")[0]`: the part before the first `#`. -/
def beforeHash (s : String) : String :=
  String.mk (s.toList.takeWhile (fun c => c != '#'))

/-- Models `urlparse(url).netloc` for absolute URLs: the text between `://` and
the next `/`, `?` or `#` (empty when the URL has no scheme marker). -/
def afterScheme : List Char → Option (List Char)
  | ':' :: '/' :: '/' :: rest => some rest
  | _ :: rest => afterScheme rest
  | [] => none

def netloc (url : String) : String :=
  match afterScheme url.toList with
  | some rest =>
      String.mk (rest.takeWhile (fun c => c != '/' && c != '?' && c != '#'))
  | none => ""

/-- Models `_same_host` (fetch.py lines 101-105). -/
def same_host (url base : String) : Bool := netloc url == netloc base

/-- Models `_is_non_english_url` (fetch.py lines 116-118). -/
def is_non_english_url (url : String) : Bool :=
  NON_EN_PATH_SEGMENTS.any (fun seg => strHas (lowerStr url) seg)

/-- Models `_clean_links` (fetch.py lines 107-114): strip fragments, drop empties,
deduplicate keeping the first occurrence, preserve order. -/
def clean_links_go : List String → List String → List String
  | [], _ => []
  | u :: rest, seen =>
      let u' := pyStrip (beforeHash u)
      if u' != "" && !seen.contains u' then
        u' :: clean_links_go rest (u' :: seen)
      else
        clean_links_go rest seen

def clean_links (links : List String) : List String := clean_links_go links []

/-! ## Date model

Timezone-aware `datetime` values compare by their UTC instants, so we
model them as `Int` seconds relative to the Unix epoch.  `timedelta(days=n)`
is `n * 86400` seconds. -/

def secondsPerDay : Int := 86400

/-- Gregorian leap-year rule (as used by Python `datetime`). -/
def isLeap (y : Nat) : Bool := y % 4 == 0 && (y % 100 != 0 || y % 400 == 0)

def daysInMonth (y m : Nat) : Nat :=
  if m == 2 then (if isLeap y then 29 else 28)
  else if m == 4 || m == 6 || m == 9 || m == 11 then 30
  else 31

/-- Does `datetime(y, mo, d)` construct without raising `ValueError`? -/
def validYMD (y mo d : Nat) : Bool :=
  1 ≤ y && y ≤ 9999 && 1 ≤ mo && mo ≤ 12 && 1 ≤ d && d ≤ daysInMonth y mo

/-- Days from the civil epoch 1970-01-01 (days-from-civil algorithm). -/
def daysFromCivil (y mo d : Nat) : Int :=
  let yi : Int := (y : Int) - (if mo ≤ 2 then 1 else 0)
  let era : Int := yi / 400
  let yoe : Int := yi - era * 400
  let mi : Int := (mo : Int) + (if 2 < mo then -3 else 9)
  let doy : Int := (153 * mi + 2) / 5 + (d : Int) - 1
  let doe : Int := yoe * 365 + yoe / 4 - yoe / 100 + doy
  era * 146097 + doe - 719468

/-- The instant of `datetime(y, mo, d, tzinfo=timezone.utc)` (UTC midnight). -/
def mkUTCInstant (y mo d : Nat) : Int := daysFromCivil y mo d * secondsPerDay

/-- Models `_is_recent` (fetch.py lines 93-96): `dt >= now - timedelta(days=MAX_AGE_DAYS)`,
`False` for `None`. -/
def is_recent (dt : Option Int) (now : Int) : Bool :=
  match dt with
  | none => false
  | some d => decide (now - (MAX_AGE_DAYS : Int) * secondsPerDay ≤ d)

/-! ## `_date_from_url_path` (fetch.py lines 143-159)

The two regular expressions are modelled directly as scanners over the
character list.  `re.search` returns the leftmost match; the optional day
group of `/(20\d\d)/([01]\d)(?:/([0-3]\d))?/` is greedy, backtracking to
the day-less match when no closing slash follows the day digits. -/

def digitVal (c : Char) : Nat := c.toNat - 48

/-- Match the first URL-date pattern anchored at the head of the list. -/
def matchYMDAt : List Char → Option (Nat × Nat × Option Nat)
  | '/' :: '2' :: '0' :: y3 :: y4 :: '/' :: m1 :: m2 :: rest =>
      if y3.isDigit && y4.isDigit && (m1 == '0' || m1 == '1') && m2.isDigit then
        let y := 2000 + digitVal y3 * 10 + digitVal y4
        let mo := digitVal m1 * 10 + digitVal m2
        match rest with
        | '/' :: r2 =>
            (match r2 with
             | d1 :: d2 :: '/' :: _ =>
                 if ('0' ≤ d1 && d1 ≤ '3') && d2.isDigit then
                   some (y, mo, some (digitVal d1 * 10 + digitVal d2))
                 else some (y, mo, none)
             | _ => some (y, mo, none))
        | _ => none
      else none
  | _ => none

/-- Leftmost match of the `/YYYY/MM(/DD)?/` pattern (`re.search`). -/
def scanYMD : List Char → Option (Nat × Nat × Option Nat)
  | [] => none
  | c :: rest =>
      match matchYMDAt (c :: rest) with
      | some r => some r
      | none => scanYMD rest

/-- Match `(20\d\d)-([01]\d)-([0-3]\d)` anchored at the head of the list. -/
def matchISOAt : List Char → Option (Nat × Nat × Nat)
  | '2' :: '0' :: y3 :: y4 :: '-' :: m1 :: m2 :: '-' :: d1 :: d2 :: _ =>
      if y3.isDigit && y4.isDigit && (m1 == '0' || m1 == '1') && m2.isDigit &&
         ('0' ≤ d1 && d1 ≤ '3') && d2.isDigit then
        some (2000 + digitVal y3 * 10 + digitVal y4,
              digitVal m1 * 10 + digitVal m2,
              digitVal d1 * 10 + digitVal d2)
      else none
  | _ => none

/-- Leftmost match of the slug pattern `YYYY-MM-DD` (`re.search`). -/
def scanISO : List Char → Option (Nat × Nat × Nat)
  | [] => none
  | c :: rest =>
      match matchISOAt (c :: rest) with
      | some r => some r
      | none => scanISO rest

/-- Models `_date_from_url_path`: first regex with day defaulting to "15", the
slug regex as fallback; an invalid date raises inside the `try` and
returns `None` without falling through. -/
def date_from_url_path (url : String) : Option Int :=
  match scanYMD url.toList with
  | some (y, mo, dOpt) =>
      let d := dOpt.getD 15
      if validYMD y mo d then some (mkUTCInstant y mo d) else none
  | none =>
      match scanISO url.toList with
      | some (y, mo, d) =>
          if validYMD y mo d then some (mkUTCInstant y mo d) else none
      | none => none

/-! ## HTTP transport retry loop (`_backoff_sleep`, `_http_get`,
fetch.py lines 279-302)

One attempt either yields a response with a status code or raises a
network-level exception; the outcome of attempt `i` is supplied by an
oracle.  The loop body runs for `i in range(retries + 1)`: a status in
the transient set or an exception sleeps `_backoff_sleep(i + 1)` and
retries; any other response returns immediately; exhaustion re-raises. -/

def TRANSIENT_STATUSES : List Nat := [429, 500, 502, 503, 504]

/-- The `_backoff_sleep(retry_idx)` delay: `base ** retry_idx * (1.0 + 0.25 * (retry_idx + 1))`. -/
def backoff_delay (base : ℚ) (retryIdx : Nat) : ℚ :=
  base ^ retryIdx * (1 + (1 / 4) * ((retryIdx : ℚ) + 1))

inductive Attempt where
  | resp (status : Nat)
  | exc
deriving DecidableEq

structure RunResult where
  outcome : Except Unit Nat
  attempts : Nat
  delays : List ℚ

/-- The retry loop from attempt index `i` with `fuel` iterations left. -/
def http_get_go (o : Nat → Attempt) (base : ℚ) (i fuel : Nat) : RunResult :=
  match fuel with
  | 0 => ⟨.error (), 0, []⟩
  | f + 1 =>
      match o i with
      | .resp s =>
          if TRANSIENT_STATUSES.contains s then
            let r := http_get_go o base (i + 1) f
            ⟨r.outcome, r.attempts + 1, backoff_delay base (i + 1) :: r.delays⟩
          else ⟨.ok s, 1, []⟩
      | .exc =>
          let r := http_get_go o base (i + 1) f
          ⟨r.outcome, r.attempts + 1, backoff_delay base (i + 1) :: r.delays⟩

/-- Models `_http_get`: `for i in range(HTTP_RETRIES + 1)` with per-attempt
outcomes given by the oracle `o`; `.error` models the final re-raise. -/
def http_get_run (o : Nat → Attempt) (base : ℚ) (retries : Nat) : RunResult :=
  http_get_go o base 0 (retries + 1)

/-! ## HTML parsing boundary

`lxml`/`trafilatura`/`pdfminer` calls are abstracted as input records
carrying exactly the values the corresponding parse would produce. -/

/-- Result of reading the declared language of the document
(`_html_lang_is_english`, fetch.py lines 120-126): either the parse
raised, or it yielded the `lang`/`xml:lang` attribute text (the xpath
`string()` form gives `""` when the attribute is absent). -/
inductive LangInfo where
  | parseError
  | lang (s : String)
deriving DecidableEq

def html_lang_is_english : LangInfo → Bool
  | .parseError => true
  | .lang s => s == "" || strStarts (lowerStr s) "en"

/-- The date values each strategy of `_guess_published_at_from_html`
(fetch.py lines 172-223) would yield: the first parseable date among the
meta/time xpaths, among the JSON-LD blocks, and among the visible
`Month DD, YYYY` texts; `parseFailed` models `lxml` raising on the page. -/
structure HtmlDateSignals where
  parseFailed : Bool
  metaTagDate : Option Int
  ldJsonDate : Option Int
  humanTextDate : Option Int
deriving DecidableEq

def guess_published_at_from_html (s : HtmlDateSignals) : Option Int :=
  if s.parseFailed then none
  else
    match s.metaTagDate with
    | some d => some d
    | none =>
        match s.ldJsonDate with
        | some d => some d
        | none => s.humanTextDate

/-- Source config after `merged` (defaults from the `cfg.get` calls). -/
structure Cfg where
  same_host_only : Bool := true
  allow_substr : List String := []
  deny_substr : List String := []
  max_links : Nat := 12
  last_week_only : Bool := true
  pdf_chase : Bool := true
deriving DecidableEq

/-- The HTTP response for the article page plus what parsing it yields. -/
structure PageResp where
  status : Nat
  langInfo : LangInfo
  dateSignals : HtmlDateSignals
  /-- Parsed `Last-Modified` header (`_published_from_headers`). -/
  lastModified : Option Int
  /-- Result of `_extract_text_from_html`. -/
  extractedText : String
  /-- Result of `_find_first_pdf_link`. -/
  pdfLink : Option String
  /-- Value of `string(//title)` (`none` when the parse raised). -/
  titleTag : Option String
deriving DecidableEq

/-- The response obtained when fetching a PDF link. -/
structure PdfResp where
  status : Nat
  contentType : String
  /-- Result of `pdf_extract_text` (`none` when it raised). -/
  extractedText : Option String
  /-- Parsed `Last-Modified` header of the PDF response. -/
  lastModified : Option Int
deriving DecidableEq

inductive Skip where
  | httpError (code : Nat)
  | nonEnglish
  | staleOrUndated
  | tooShort
deriving DecidableEq

instance {ε α : Type} [DecidableEq ε] [DecidableEq α] :
    DecidableEq (Except ε α) := fun a b =>
  match a, b with
  | .error x, .error y =>
      if h : x = y then .isTrue (by rw [h]) else .isFalse (by simp [h])
  | .error _, .ok _ => .isFalse (by simp)
  | .ok _, .error _ => .isFalse (by simp)
  | .ok x, .ok y =>
      if h : x = y then .isTrue (by rw [h]) else .isFalse (by simp [h])

structure Article where
  url : String
  title : String
  published_at : Int
  raw_text : String
deriving DecidableEq

/-- The date-resolution block of `_fetch_article_page`
(fetch.py lines 357-364). -/
def resolve_date (page : PageResp) (url : String) : Option Int :=
  let dt := guess_published_at_from_html page.dateSignals
  let host := lowerStr (netloc url)
  if dt = none ∧ ¬ EVERGREEN_HEADER_DOMAINS.contains host then
    match page.lastModified with
    | some lm => some lm
    | none => date_from_url_path url
  else dt

/-- Title resolution (fetch.py lines 396-405).  The literal `"â€¦"` is the
byte sequence present in the source file. -/
def firstLine (s : String) : String :=
  String.mk (s.toList.takeWhile (fun c => c != '\n' && c != '\x0d'))

def takeChars (n : Nat) (s : String) : String := String.mk (s.toList.take n)

def resolve_title (titleTag : Option String) (text : String) : String :=
  let title := pyStrip (titleTag.getD "")
  if title != "" then title
  else
    let fl := pyStrip (firstLine text)
    if 120 < fl.length then takeChars 120 fl ++ "â€¦"
    else if fl != "" then fl else "Untitled"

/-- The PDF-chase block of `_fetch_article_page` (fetch.py lines 373-389):
returns the possibly-extended body text and the possibly-overridden
publish timestamp. -/
def pdf_chase_step (cfg : Cfg) (dt : Option Int) (host : String)
    (text : String) (published_at : Int) (pdfLink : Option String)
    (pdfFetch : String → PdfResp) (now : Int) : String × Int :=
  if text.length < MIN_TEXT_LENGTH ∧ cfg.pdf_chase then
    match pdfLink with
    | some purl =>
        let pr := pdfFetch purl
        if pr.status = 200 ∧
           strHas (lowerStr pr.contentType) "application/pdf" then
          let pdf_text := pr.extractedText.getD ""
          if pdf_text ≠ "" then
            let lm := pr.lastModified
            if ¬ cfg.last_week_only ∨ is_recent lm now then
              let text' := pyStrip (text ++ "\n\n" ++ pyStrip pdf_text)
              let pub' :=
                if dt = none ∧ lm ≠ none ∧
                   ¬ EVERGREEN_HEADER_DOMAINS.contains host then
                  lm.getD published_at
                else published_at
              (text', pub')
            else (text, published_at)
          else (text, published_at)
        else (text, published_at)
    | none => (text, published_at)
  else (text, published_at)

/-- Models `_fetch_article_page` (fetch.py lines 346-407), with the network
answer for a PDF link supplied by `pdfFetch` and the current time by
`now`.  `Skip` reasons mirror the logged skip messages; `.httpError`
is the non-200 early return. -/
def fetch_article_page (url : String) (cfg : Cfg) (page : PageResp)
    (pdfFetch : String → PdfResp) (now : Int) : Except Skip Article :=
  if page.status ≠ 200 then .error (.httpError page.status)
  else if ¬ html_lang_is_english page.langInfo then .error .nonEnglish
  else
    let dt := resolve_date page url
    let host := lowerStr (netloc url)
    if cfg.last_week_only ∧ is_recent dt now = false then .error .staleOrUndated
    else
      let published_at := dt.getD now
      let text := page.extractedText
      let step := pdf_chase_step cfg dt host text published_at page.pdfLink
        pdfFetch now
      if step.1.length < MIN_TEXT_LENGTH then .error .tooShort
      else .ok ⟨url, resolve_title page.titleTag step.1, step.2, step.1⟩

/-! ## Listing discovery (`_parse_listing_html`, fetch.py lines 317-343)

The lxml anchor extraction and `urljoin` resolution form the HTML-parsing
boundary: the model takes the resolved anchor URLs in DOM order (the
`<article>`-nested anchors first, then all anchors, as the code
concatenates them) and applies the filter pipeline. -/

def DENY_ALWAYS : List String := ["/page-not-found", "/404"] ++ NON_EN_PATH_SEGMENTS

def DROP_SUFFIXES : List String :=
  ["/en", "/news", "/policies", "/about", "/contact", "/events"]

def parse_listing_html (anchors : List String) (base_url : String)
    (cfg : Cfg) : List String :=
  let links := clean_links anchors
  let links := if cfg.same_host_only then
      links.filter (fun u => same_host u base_url) else links
  let links := links.filter (fun u => ¬ is_non_english_url u)
  let allow := cfg.allow_substr
  let deny := cfg.deny_substr ++ DENY_ALWAYS
  let links := if ¬ allow.isEmpty then
      links.filter (fun u => allow.any (fun a => strHas u a)) else links
  let links := links.filter (fun u => deny.all (fun d => ¬ strHas u d))
  let links := links.filter (fun u =>
    ¬ DROP_SUFFIXES.any (fun suf => strEnds (rstripSlash u) suf))
  links.take cfg.max_links

/-! Spec-side restatement of the listing filter pipeline, phrased as the
ordered stages (a)-(e) of the specification, for the refinement claim. -/

def stageSameHost (base : String) (cfg : Cfg) (links : List String) : List String :=
  if cfg.same_host_only then links.filter (fun u => same_host u base) else links

def stageNonEnglish (links : List String) : List String :=
  links.filter (fun u => ¬ is_non_english_url u)

def stageAllow (cfg : Cfg) (links : List String) : List String :=
  if ¬ cfg.allow_substr.isEmpty then
    links.filter (fun u => cfg.allow_substr.any (fun a => strHas u a))
  else links

def stageDeny (cfg : Cfg) (links : List String) : List String :=
  links.filter (fun u => (cfg.deny_substr ++ DENY_ALWAYS).all (fun d => ¬ strHas u d))

def stageNav (links : List String) : List String :=
  links.filter (fun u => ¬ DROP_SUFFIXES.any (fun suf => strEnds (rstripSlash u) suf))

/-- Modelled from the spec, §4.3 wording: dedup/normalize, then stages
(a) same-host, (b) non-English, (c) allow, (d) deny, (e) navigational
suffixes, then truncate to `max_links` preserving order. -/
def spec_listing_discovery (anchors : List String) (base_url : String)
    (cfg : Cfg) : List String :=
  (stageNav (stageDeny cfg (stageAllow cfg (stageNonEnglish
    (stageSameHost base_url cfg (clean_links anchors)))))).take cfg.max_links

/-! ## `_sha1` (fetch.py lines 98-99): SHA-1 hex digest of the UTF-8 bytes

Implemented over `Nat` with explicit reduction modulo `2 ^ 32`. -/

def w32 (n : Nat) : Nat := n % 4294967296

def rotl32 (x n : Nat) : Nat := w32 (x * 2 ^ n) ||| x / 2 ^ (32 - n)

def utf8Bytes (s : String) : List Nat := s.toUTF8.toList.map (fun b => b.toNat)

/-- Big-endian byte expansion of `n` into `k` bytes. -/
def bytesBE (k n : Nat) : List Nat :=
  (List.range k).map (fun i => n / 2 ^ (8 * (k - 1 - i)) % 256)

/-- SHA-1 padding: `0x80`, zeros to 56 mod 64, then the 64-bit bit length. -/
def sha1Pad (msg : List Nat) : List Nat :=
  let padZeros := (119 - msg.length % 64) % 64
  msg ++ [128] ++ List.replicate padZeros 0 ++ bytesBE 8 (msg.length * 8)

/-- Pack bytes into big-endian 32-bit words. -/
def toWords : List Nat → List Nat
  | b0 :: b1 :: b2 :: b3 :: rest =>
      (((b0 * 256 + b1) * 256 + b2) * 256 + b3) :: toWords rest
  | _ => []

/-- One step of the message-schedule extension. -/
def schedStep (ws : List Nat) : List Nat :=
  let n := ws.length
  ws ++ [rotl32 ((ws.getD (n - 3) 0 ^^^ ws.getD (n - 8) 0) ^^^
                 (ws.getD (n - 14) 0 ^^^ ws.getD (n - 16) 0)) 1]

def sha1F (t b c d : Nat) : Nat :=
  if t < 20 then (b &&& c) ||| ((b ^^^ 4294967295) &&& d)
  else if t < 40 then (b ^^^ c) ^^^ d
  else if t < 60 then (b &&& c) ||| (b &&& d) ||| (c &&& d)
  else (b ^^^ c) ^^^ d

def sha1K (t : Nat) : Nat :=
  if t < 20 then 1518500249
  else if t < 40 then 1859775393
  else if t < 60 then 2400959708
  else 3395469782

abbrev Sha1State := Nat × Nat × Nat × Nat × Nat

def sha1Round (ws : List Nat) (st : Sha1State) (t : Nat) : Sha1State :=
  let (a, b, c, d, e) := st
  let tmp := w32 (rotl32 a 5 + sha1F t b c d + e + sha1K t + ws.getD t 0)
  (tmp, a, rotl32 b 30, c, d)

def sha1Compress (h : Sha1State) (block : List Nat) : Sha1State :=
  let ws := schedStep^[64] (toWords block)
  let (a, b, c, d, e) := (List.range 80).foldl (sha1Round ws) h
  let (h0, h1, h2, h3, h4) := h
  (w32 (h0 + a), w32 (h1 + b), w32 (h2 + c), w32 (h3 + d), w32 (h4 + e))

def sha1Blocks (fuel : Nat) (h : Sha1State) (msg : List Nat) : Sha1State :=
  match fuel with
  | 0 => h
  | f + 1 =>
      match msg with
      | [] => h
      | _ => sha1Blocks f (sha1Compress h (msg.take 64)) (msg.drop 64)

def hexDigit (n : Nat) : Char := "0123456789abcdef".toList.getD n '0'

def hex8 (n : Nat) : String :=
  String.mk ((List.range 8).map (fun i => hexDigit (n / 16 ^ (7 - i) % 16)))

/-- Models `_sha1(s)`: `hashlib.sha1(s.encode("utf-8")).hexdigest()`. -/
def sha1 (s : String) : String :=
  let msg := sha1Pad (utf8Bytes s)
  let (h0, h1, h2, h3, h4) :=
    sha1Blocks msg.length (1732584193, 4023233417, 2562383102, 271733878, 3285377520) msg
  hex8 h0 ++ hex8 h1 ++ hex8 h2 ++ hex8 h3 ++ hex8 h4

/-- The persisted item built in the `handle` closure of `fetch_all`
(fetch.py lines 475-481): the stored `hash` is computed from the URL of
the article alone. -/
structure Item where
  url : String
  title : String
  raw_text : String
  published_at : Int
  hash : String
deriving DecidableEq

def mk_item (art : Article) : Item :=
  ⟨art.url, art.title, art.raw_text, art.published_at, sha1 art.url⟩

/-- Modelled from the spec, §4.4 step 3 wording, amended to the evergreen
scoping found in the code: strategies in order — (a) metadata tags, (b) JSON-LD
blocks, then the visible `Month DD, YYYY` scan, then, only for hosts not
flagged evergreen, (c) the Last-Modified header and (d) the URL date
pattern; `none` when all fail. -/
def spec_date_inference (page : PageResp) (url : String) : Option Int :=
  let ev := EVERGREEN_HEADER_DOMAINS.contains (lowerStr (netloc url))
  let sa := if page.dateSignals.parseFailed then none else page.dateSignals.metaTagDate
  let sb := if page.dateSignals.parseFailed then none else page.dateSignals.ldJsonDate
  let sv := if page.dateSignals.parseFailed then none else page.dateSignals.humanTextDate
  let sc := if ¬ ev then page.lastModified else none
  let sd := if ¬ ev then date_from_url_path url else none
  sa.orElse (fun _ => sb.orElse (fun _ => sv.orElse (fun _ =>
    sc.orElse (fun _ => sd))))

/-! ## Concrete scenario data used by witnesses and counterexamples -/

/-- Shared inert PDF oracle: a 404 with no content (never consulted in the
scenarios that use it). -/
def noPdfOracle : String → PdfResp := fun _ => ⟨404, "", none, none⟩

/-- Page with no date signals of any kind and a long extracted body. -/
def c4_page : PageResp :=
  { status := 200, langInfo := .lang "en",
    dateSignals := ⟨false, none, none, none⟩, lastModified := none,
    extractedText := "", pdfLink := none, titleTag := none }

/-- Page used by the C9 witness: parse of the language attribute raises. -/
def c9_page : PageResp :=
  { status := 200, langInfo := .parseError,
    dateSignals := ⟨false, some 0, none, none⟩, lastModified := none,
    extractedText := "", pdfLink := none, titleTag := some "T" }

/-- Page used for C3: no date metadata of any kind, recent Last-Modified
header, long body. -/
def c3_page : PageResp :=
  { status := 200, langInfo := .lang "en",
    dateSignals := ⟨false, none, none, none⟩, lastModified := some 1000000,
    extractedText := String.mk (List.replicate 700 'a'), pdfLink := none,
    titleTag := some "T" }

/-- Page used by the C5 witness: the metadata date of the page is exactly 8
days older than the fetch time `2000000000`. -/
def c5_page : PageResp :=
  { status := 200, langInfo := .lang "en",
    dateSignals := ⟨false, some (2000000000 - 8 * 86400), none, none⟩,
    lastModified := none, extractedText := "", pdfLink := none,
    titleTag := some "T" }

/-- Page used for C1: 200-character body, recent metadata date, PDF link. -/
def c1_page : PageResp :=
  { status := 200, langInfo := .lang "",
    dateSignals := ⟨false, some 999000, none, none⟩, lastModified := none,
    extractedText := String.mk (List.replicate 200 'a'),
    pdfLink := some "https://ex.org/doc.pdf", titleTag := some "T" }

/-- PDF oracle for the C1 witness: 200/PDF with 3000 characters of text
and a recent Last-Modified. -/
def c1_pdfOracle : String → PdfResp := fun _ =>
  ⟨200, "application/pdf", some (String.mk (List.replicate 3000 'b')),
   some 999500⟩

/-- PDF oracle for the C1 counterexample: identical but with NO
Last-Modified header. -/
def c1_pdfOracleNoLM : String → PdfResp := fun _ =>
  ⟨200, "application/pdf", some (String.mk (List.replicate 3000 'b')), none⟩

/-- Scenario A anchors: 20 same-host English anchors in DOM order, of
which 8 match the allow-substring `/articles/` and none match any
deny-substring. -/
def c7_anchors : List String :=
  ["https://ex.org/articles/a01", "https://ex.org/other/p01",
   "https://ex.org/articles/a02", "https://ex.org/other/p02",
   "https://ex.org/articles/a03", "https://ex.org/other/p03",
   "https://ex.org/articles/a04", "https://ex.org/other/p04",
   "https://ex.org/articles/a05", "https://ex.org/other/p05",
   "https://ex.org/articles/a06", "https://ex.org/other/p06",
   "https://ex.org/articles/a07", "https://ex.org/other/p07",
   "https://ex.org/articles/a08", "https://ex.org/other/p08",
   "https://ex.org/other/p09", "https://ex.org/other/p10",
   "https://ex.org/other/p11", "https://ex.org/other/p12"]

def c7_cfg : Cfg := { allow_substr := ["/articles/"] }

def c7_expected : List String :=
  ["https://ex.org/articles/a01", "https://ex.org/articles/a02",
   "https://ex.org/articles/a03", "https://ex.org/articles/a04",
   "https://ex.org/articles/a05", "https://ex.org/articles/a06",
   "https://ex.org/articles/a07", "https://ex.org/articles/a08"]

/-! ## Lemmas about the retry loop -/

theorem backoff_delay_succ_lt (r : Nat) :
    backoff_delay HTTP_BACKOFF_BASE (r + 1) < backoff_delay HTTP_BACKOFF_BASE r := by
  unfold backoff_delay HTTP_BACKOFF_BASE
  have hp : (0 : ℚ) < (4 / 5) ^ r := by positivity
  have hr : (0 : ℚ) ≤ (r : ℚ) := Nat.cast_nonneg r
  have key : (4 / 5 : ℚ) * (1 + 1 / 4 * ((r : ℚ) + 1 + 1)) <
      1 + 1 / 4 * ((r : ℚ) + 1) := by linarith
  have hm := mul_lt_mul_of_pos_left key hp
  push_cast
  rw [pow_succ]
  nlinarith [hm]

theorem http_get_go_attempts_le (o : Nat → Attempt) (b : ℚ) :
    ∀ fuel i, (http_get_go o b i fuel).attempts ≤ fuel := by
  intro fuel
  induction fuel with
  | zero => intro i; simp [http_get_go]
  | succ f ih =>
      intro i
      rcases ho : o i with s | _
      · by_cases ht : s ∈ TRANSIENT_STATUSES
        · simpa [http_get_go, ho, ht] using ih (i + 1)
        · simp [http_get_go, ho, ht]
      · simpa [http_get_go, ho] using ih (i + 1)

theorem http_get_go_delays_shape (o : Nat → Attempt) (b : ℚ) :
    ∀ fuel i, ∃ n, (http_get_go o b i fuel).delays =
      (List.range' (i + 1) n).map (backoff_delay b) := by
  intro fuel
  induction fuel with
  | zero => intro i; exact ⟨0, by simp [http_get_go]⟩
  | succ f ih =>
      intro i
      rcases ho : o i with s | _
      · by_cases ht : s ∈ TRANSIENT_STATUSES
        · obtain ⟨n, hn⟩ := ih (i + 1)
          refine ⟨n + 1, ?_⟩
          simp [http_get_go, ho, ht, hn, List.range'_succ]
        · exact ⟨0, by simp [http_get_go, ho, ht]⟩
      · obtain ⟨n, hn⟩ := ih (i + 1)
        refine ⟨n + 1, ?_⟩
        simp [http_get_go, ho, hn, List.range'_succ]

theorem backoff_delay_strictAnti : StrictAnti (backoff_delay HTTP_BACKOFF_BASE) :=
  strictAnti_nat_of_succ_lt backoff_delay_succ_lt

theorem http_get_go_outcome_resp (o : Nat → Attempt) (b : ℚ) (f i s : Nat)
    (ho : o i = .resp s) (hs : s ∉ TRANSIENT_STATUSES) :
    http_get_go o b i (f + 1) = ⟨.ok s, 1, []⟩ := by
  simp [http_get_go, ho, hs]

/-- C2 (amended): for every request through the retry loop the total number
of HTTP attempts never exceeds `retries + 1`, and the backoff delays waited
are `backoff_delay base r` for consecutive `r = 1, 2, ...` — with the
default base 0.8 this sequence is strictly DECREASING. -/
theorem retry_budget_and_backoff_decreasing (o : Nat → Attempt) (retries : Nat) :
    (http_get_run o HTTP_BACKOFF_BASE retries).attempts ≤ retries + 1 ∧
    (∃ n, (http_get_run o HTTP_BACKOFF_BASE retries).delays =
      (List.range' 1 n).map (backoff_delay HTTP_BACKOFF_BASE)) ∧
    (http_get_run o HTTP_BACKOFF_BASE retries).delays.Pairwise (· > ·) := by
  refine ⟨http_get_go_attempts_le o HTTP_BACKOFF_BASE (retries + 1) 0, ?_, ?_⟩
  · simpa using http_get_go_delays_shape o HTTP_BACKOFF_BASE (retries + 1) 0
  · obtain ⟨n, hn⟩ := http_get_go_delays_shape o HTTP_BACKOFF_BASE (retries + 1) 0
    have hn' : (http_get_run o HTTP_BACKOFF_BASE retries).delays =
        (List.range' (0 + 1) n).map (backoff_delay HTTP_BACKOFF_BASE) := hn
    rw [hn']
    exact List.Pairwise.map _ (fun a b hab => backoff_delay_strictAnti hab)
      (List.pairwise_lt_range' _ _)

/-- C2 counterexample: with the default base 0.8 and retries 3, an
always-failing request waits delays 6/5, 28/25, 128/125, 576/625 — the
second delay is strictly SMALLER than the first, so the delay sequence is
not strictly increasing. -/
theorem retry_delays_not_increasing :
    (http_get_run (fun _ => Attempt.exc) HTTP_BACKOFF_BASE 3).delays =
      [backoff_delay HTTP_BACKOFF_BASE 1, backoff_delay HTTP_BACKOFF_BASE 2,
       backoff_delay HTTP_BACKOFF_BASE 3, backoff_delay HTTP_BACKOFF_BASE 4] ∧
    backoff_delay HTTP_BACKOFF_BASE 2 < backoff_delay HTTP_BACKOFF_BASE 1 ∧
    ¬ (http_get_run (fun _ => Attempt.exc) HTTP_BACKOFF_BASE 3).delays.Pairwise
        (· < ·) := by
  have e : (http_get_run (fun _ => Attempt.exc) HTTP_BACKOFF_BASE 3).delays =
      [backoff_delay HTTP_BACKOFF_BASE 1, backoff_delay HTTP_BACKOFF_BASE 2,
       backoff_delay HTTP_BACKOFF_BASE 3, backoff_delay HTTP_BACKOFF_BASE 4] := rfl
  have hlt : backoff_delay HTTP_BACKOFF_BASE 2 < backoff_delay HTTP_BACKOFF_BASE 1 := by
    norm_num [backoff_delay, HTTP_BACKOFF_BASE]
  refine ⟨e, hlt, fun h => ?_⟩
  rw [e] at h
  have h12 := (List.pairwise_cons.mp h).1 (backoff_delay HTTP_BACKOFF_BASE 2) (by simp)
  linarith

/-- C6: a response whose status is outside {429, 500, 502, 503, 504} is
returned immediately on the first attempt, with one attempt and no backoff
sleeps; conversely a retry (a second attempt) happens only when the first
attempt was a transient status or a network exception. -/
theorem non_transient_returned_immediately (o : Nat → Attempt) (retries : Nat) :
    (∀ s, o 0 = .resp s → s ∉ TRANSIENT_STATUSES →
      http_get_run o HTTP_BACKOFF_BASE retries = ⟨.ok s, 1, []⟩) ∧
    (2 ≤ (http_get_run o HTTP_BACKOFF_BASE retries).attempts →
      (∃ s, o 0 = .resp s ∧ s ∈ TRANSIENT_STATUSES) ∨ o 0 = .exc) := by
  constructor
  · intro s ho hs
    exact http_get_go_outcome_resp o HTTP_BACKOFF_BASE retries 0 s ho hs
  · intro h2
    rcases ho : o 0 with s | _
    · by_cases ht : s ∈ TRANSIENT_STATUSES
      · exact .inl ⟨s, rfl, ht⟩
      · exfalso
        have h1 : (http_get_run o HTTP_BACKOFF_BASE retries).attempts = 1 := by
          unfold http_get_run
          rw [http_get_go_outcome_resp o HTTP_BACKOFF_BASE retries 0 s ho ht]
        omega
    · exact .inr rfl

/-- C6 witness: a 404 on the first attempt is returned at once. -/
theorem non_transient_returned_immediately_witness :
    http_get_run (fun _ => Attempt.resp 404) HTTP_BACKOFF_BASE 3 =
      ⟨.ok 404, 1, []⟩ :=
  (non_transient_returned_immediately (fun _ => Attempt.resp 404) 3).1 404 rfl
    (by decide)

/-- C8: the persisted fingerprint is the SHA-1 hex digest of the URL string
alone: two ingested articles with the same URL get equal fingerprints no
matter how title, body text or date differ. -/
theorem fingerprint_depends_only_on_url (a b : Article) (h : a.url = b.url) :
    (mk_item a).hash = (mk_item b).hash ∧ (mk_item a).hash = sha1 a.url := by
  simp [mk_item, h]

/-- C8 witness: same URL, different title, body and date — equal
fingerprints. -/
theorem fingerprint_depends_only_on_url_witness :
    (mk_item ⟨"https://ex.org/a", "Title 1", 100, "body one"⟩).hash =
      (mk_item ⟨"https://ex.org/a", "Title 2", 200, "body two"⟩).hash :=
  (fingerprint_depends_only_on_url ⟨"https://ex.org/a", "Title 1", 100, "body one"⟩
    ⟨"https://ex.org/a", "Title 2", 200, "body two"⟩ rfl).1

/-- C4 (amended): the date resolution in the code equals the ordered strategy
chain — (a) metadata tags, (b) JSON-LD blocks, then the visible
`Month DD, YYYY` scan, then (c) the Last-Modified header and (d) the URL
date pattern, where (c) AND (d) run only for hosts not flagged evergreen;
when all fail (including (c)-(d) being skipped for an evergreen host) the
date is left unresolved. -/
theorem date_inference_strategy_order (page : PageResp) (url : String) :
    resolve_date page url = spec_date_inference page url := by
  obtain ⟨st, li, ds, lm, tx, pl, tt⟩ := page
  obtain ⟨pf, mt, lj, hm⟩ := ds
  unfold resolve_date spec_date_inference guess_published_at_from_html
  cases pf <;> cases mt <;> cases lj <;> cases hm <;> cases lm <;>
    by_cases hev : lowerStr (netloc url) ∈ EVERGREEN_HEADER_DOMAINS <;>
    simp [hev, Option.orElse]

/-- C4 counterexample: for the evergreen host `www.iso.org`, a URL carrying
the date pattern `/2024/05/` resolves to NO date — the URL-pattern step is
skipped together with the Last-Modified step — even though the URL-pattern
inference alone would succeed, contradicting "the URL-pattern step (d) is
attempted whenever (a)-(c) fail". -/
theorem date_inference_evergreen_skips_url_pattern :
    resolve_date c4_page "https://www.iso.org/news/2024/05/item" = none ∧
    date_from_url_path "https://www.iso.org/news/2024/05/item" =
      some (mkUTCInstant 2024 5 15) := by
  constructor
  · rfl
  · decide

/-- C9: a document with no declared `lang` attribute, or one whose language
parse raises, is treated as English: the language gate returns `True` and
the article is never skipped as non-English. -/
theorem missing_lang_treated_as_english (info : LangInfo)
    (h : info = LangInfo.parseError ∨ info = LangInfo.lang "") :
    html_lang_is_english info = true ∧
    ∀ url cfg page pdfFetch now, page.langInfo = info →
      fetch_article_page url cfg page pdfFetch now ≠ .error Skip.nonEnglish := by
  have he : html_lang_is_english info = true := by
    rcases h with h | h <;> subst h <;> simp [html_lang_is_english]
  refine ⟨he, ?_⟩
  intro url cfg page pdfFetch now hli hcontra
  unfold fetch_article_page at hcontra
  by_cases hs : page.status ≠ 200
  · simp [hs] at hcontra
  · simp [hs, hli, he] at hcontra
    split at hcontra
    · exact absurd hcontra (by simp)
    · split at hcontra <;> simp_all

theorem pdf_chase_step_snd_default (cfg : Cfg) (dt : Option Int) (host : String)
    (text : String) (pub : Int) (pdfLink : Option String)
    (pdfFetch : String → PdfResp) (now : Int)
    (hlm : ∀ l, pdfLink = some l → (pdfFetch l).lastModified = none) :
    (pdf_chase_step cfg dt host text pub pdfLink pdfFetch now).2 = pub := by
  unfold pdf_chase_step
  rcases pdfLink with _ | l
  · split <;> rfl
  · have hl := hlm l rfl
    split
    · simp only [hl]
      split
      · split
        · split
          · simp
          · rfl
        · rfl
      · rfl
    · rfl

theorem pdf_chase_step_appends (cfg : Cfg) (dt : Option Int) (host : String)
    (text : String) (pub : Int) (purl : String)
    (pdfFetch : String → PdfResp) (now : Int) (pt : String)
    (hshort : text.length < MIN_TEXT_LENGTH)
    (hchase : cfg.pdf_chase = true)
    (hst : (pdfFetch purl).status = 200)
    (hct : strHas (lowerStr (pdfFetch purl).contentType) "application/pdf" = true)
    (hxt : (pdfFetch purl).extractedText = some pt)
    (hne : pt ≠ "")
    (hfresh : ¬ cfg.last_week_only = true ∨
      is_recent (pdfFetch purl).lastModified now = true) :
    (pdf_chase_step cfg dt host text pub (some purl) pdfFetch now).1 =
      pyStrip (text ++ "\n\n" ++ pyStrip pt) := by
  unfold pdf_chase_step
  rw [if_pos ⟨hshort, hchase⟩]
  simp only [hxt, Option.getD_some]
  rw [if_pos ⟨hst, hct⟩, if_pos hne, if_pos hfresh]

/-- C9 witness: a page whose language parse raises passes the gate and is
not skipped as non-English. -/
theorem missing_lang_treated_as_english_witness :
    html_lang_is_english LangInfo.parseError = true ∧
    fetch_article_page "https://ex.org/x" {} c9_page noPdfOracle 0 ≠
      .error Skip.nonEnglish :=
  ⟨(missing_lang_treated_as_english LangInfo.parseError (Or.inl rfl)).1,
   (missing_lang_treated_as_english LangInfo.parseError (Or.inl rfl)).2
     "https://ex.org/x" {} c9_page noPdfOracle 0 rfl⟩

/-- C3 (amended): with no date signals in the page and the host in the
evergreen list, the article is SKIPPED as stale/undated when
`last_week_only = true` (the evergreen flag disables both the
Last-Modified and the URL-pattern fallback, and the recency gate rejects
an unresolved date); only when `last_week_only = false` is the article
kept, with its publish timestamp defaulted to the fetch time. -/
theorem evergreen_undated_skipped (url : String) (cfg : Cfg) (page : PageResp)
    (pdfFetch : String → PdfResp) (now : Int)
    (hev : lowerStr (netloc url) ∈ EVERGREEN_HEADER_DOMAINS)
    (h200 : page.status = 200)
    (hen : html_lang_is_english page.langInfo = true)
    (hguess : guess_published_at_from_html page.dateSignals = none) :
    (cfg.last_week_only = true →
      fetch_article_page url cfg page pdfFetch now = .error Skip.staleOrUndated) ∧
    (cfg.last_week_only = false → MIN_TEXT_LENGTH ≤ page.extractedText.length →
      fetch_article_page url cfg page pdfFetch now =
        .ok ⟨url, resolve_title page.titleTag page.extractedText, now,
             page.extractedText⟩) := by
  have hdt : resolve_date page url = none := by
    unfold resolve_date
    simp [hguess, hev]
  constructor
  · intro hlw
    unfold fetch_article_page
    simp [h200, hen, hdt, hlw, is_recent]
  · intro hlw hlen
    have hnl : ¬ page.extractedText.length < MIN_TEXT_LENGTH := not_lt.mpr hlen
    have hstep : pdf_chase_step cfg none (lowerStr (netloc url))
        page.extractedText now page.pdfLink pdfFetch now =
        (page.extractedText, now) := by
      unfold pdf_chase_step
      rw [if_neg (fun hc => hnl hc.1)]
    unfold fetch_article_page
    simp [h200, hen, hdt, hlw, hstep, hnl]

set_option maxRecDepth 4000 in
/-- C3 counterexample: an article on the evergreen host `www.iso.org` with
no date metadata and no structured data, under `last_week_only = true`, is
skipped as stale/undated — NOT kept with the publish date defaulted to
fetch time — even though its Last-Modified header is recent. -/
theorem evergreen_undated_not_kept :
    fetch_article_page "https://www.iso.org/foo" {} c3_page noPdfOracle
      1000000 = .error Skip.staleOrUndated := by decide

set_option maxRecDepth 4000 in
/-- C3 witness: the same page is kept with publish timestamp = fetch time
once `last_week_only` is false. -/
theorem evergreen_undated_skipped_witness :
    fetch_article_page "https://www.iso.org/foo" { last_week_only := false }
      c3_page noPdfOracle 1000000 =
      .ok ⟨"https://www.iso.org/foo",
           resolve_title c3_page.titleTag c3_page.extractedText, 1000000,
           c3_page.extractedText⟩ :=
  (evergreen_undated_skipped "https://www.iso.org/foo"
    { last_week_only := false } c3_page noPdfOracle 1000000
    (by decide) rfl (by decide) rfl).2 rfl (by decide)

/-- C5: under `last_week_only`, an article past the status and language
gates is skipped as stale/undated exactly when its resolved date is
unresolved or strictly older than `MAX_AGE_DAYS` days; a resolved date
exactly 8 days old is rejected and one exactly 6 days old accepted; and
an article accepted with no resolved date (and no PDF Last-Modified
override) carries the fetch time as its publish timestamp. -/
theorem recency_gate_skips_stale_or_undated (url : String) (cfg : Cfg)
    (page : PageResp) (pdfFetch : String → PdfResp) (now : Int)
    (hlw : cfg.last_week_only = true)
    (h200 : page.status = 200)
    (hen : html_lang_is_english page.langInfo = true) :
    (fetch_article_page url cfg page pdfFetch now = .error Skip.staleOrUndated ↔
      is_recent (resolve_date page url) now = false) ∧
    (is_recent (some (now - 8 * secondsPerDay)) now = false ∧
     is_recent (some (now - 6 * secondsPerDay)) now = true) ∧
    (∀ cfg' art, fetch_article_page url cfg' page pdfFetch now = .ok art →
      resolve_date page url = none →
      (∀ l, page.pdfLink = some l → (pdfFetch l).lastModified = none) →
      art.published_at = now) := by
  refine ⟨?_, ⟨?_, ?_⟩, ?_⟩
  · unfold fetch_article_page
    cases hb : is_recent (resolve_date page url) now
    · simp [h200, hen, hlw, hb]
    · simp only [h200, hen, hlw, hb]
      simp
      split <;> simp
  · simp [is_recent, secondsPerDay, MAX_AGE_DAYS]
    omega
  · simp [is_recent, secondsPerDay, MAX_AGE_DAYS]
    omega
  · intro cfg' art hok hdt hlm
    have hsnd := pdf_chase_step_snd_default cfg' (resolve_date page url)
      (lowerStr (netloc url)) page.extractedText
      ((resolve_date page url).getD now) page.pdfLink pdfFetch now hlm
    unfold fetch_article_page at hok
    simp only [h200, hen, hdt] at hok
    by_cases hlw' : cfg'.last_week_only = true
    · simp [hlw', is_recent] at hok
    · simp only [hlw'] at hok
      simp at hok
      split at hok
      · exact absurd hok (by simp)
      · have harts := hok
        injection harts with h1
        rw [← h1]
        rw [hdt] at hsnd
        simpa using hsnd

/-- C5 witness: a resolved date exactly 8 days old is skipped as
stale/undated; one exactly 6 days old is within the window. -/
theorem recency_gate_witness :
    fetch_article_page "https://ex.org/c5" {} c5_page noPdfOracle 2000000000 =
      .error Skip.staleOrUndated ∧
    is_recent (some (2000000000 - 6 * secondsPerDay)) 2000000000 = true :=
  ⟨((recency_gate_skips_stale_or_undated "https://ex.org/c5" {} c5_page
      noPdfOracle 2000000000 rfl rfl (by decide)).1).mpr (by decide),
   (recency_gate_skips_stale_or_undated "https://ex.org/c5" {} c5_page
      noPdfOracle 2000000000 rfl rfl (by decide)).2.1.2⟩

/-- C1 (amended): when the body is shorter than `MIN_TEXT_LENGTH`,
`pdf_chase` is enabled, the page links a PDF whose fetch returns 200 with
a PDF content type and non-empty extracted text, the PDF text is appended
to the body PROVIDED `last_week_only` is disabled or the Last-Modified
date of the PDF response is recent; if the combined text reaches the minimum
length the record is produced. -/
theorem pdf_fallback_appends (url : String) (cfg : Cfg) (page : PageResp)
    (pdfFetch : String → PdfResp) (now : Int) (purl pt : String)
    (h200 : page.status = 200)
    (hen : html_lang_is_english page.langInfo = true)
    (hrec : is_recent (resolve_date page url) now = true)
    (hshort : page.extractedText.length < MIN_TEXT_LENGTH)
    (hchase : cfg.pdf_chase = true)
    (hlink : page.pdfLink = some purl)
    (hst : (pdfFetch purl).status = 200)
    (hct : strHas (lowerStr (pdfFetch purl).contentType) "application/pdf" = true)
    (hxt : (pdfFetch purl).extractedText = some pt)
    (hne : pt ≠ "")
    (hfresh : ¬ cfg.last_week_only = true ∨
      is_recent (pdfFetch purl).lastModified now = true)
    (hmin : MIN_TEXT_LENGTH ≤
      (pyStrip (page.extractedText ++ "\n\n" ++ pyStrip pt)).length) :
    ∃ art, fetch_article_page url cfg page pdfFetch now = .ok art ∧
      art.raw_text = pyStrip (page.extractedText ++ "\n\n" ++ pyStrip pt) := by
  have happ := pdf_chase_step_appends cfg (resolve_date page url)
    (lowerStr (netloc url)) page.extractedText
    ((resolve_date page url).getD now) purl pdfFetch now pt hshort hchase
    hst hct hxt hne hfresh
  unfold fetch_article_page
  simp only [h200, hen, hrec, hlink]
  simp [happ, not_lt.mpr hmin, hrec]

theorem dropWhile_head_false (p : Char → Bool) (a : Char) (l : List Char)
    (h : p a = false) : List.dropWhile p (a :: l) = a :: l := by
  simp [List.dropWhile_cons, h]

theorem dropWhile_replicate_head (p : Char → Bool) (a : Char) (n : Nat)
    (t : List Char) (h : p a = false) (hn : n ≠ 0) :
    List.dropWhile p (List.replicate n a ++ t) = List.replicate n a ++ t := by
  obtain ⟨m, rfl⟩ := Nat.exists_eq_succ_of_ne_zero hn
  rw [List.replicate_succ, List.cons_append]
  exact dropWhile_head_false p a _ h

theorem dropWhile_replicate_self (p : Char → Bool) (a : Char) (n : Nat)
    (h : p a = false) :
    List.dropWhile p (List.replicate n a) = List.replicate n a := by
  cases n with
  | zero => simp
  | succ m =>
      rw [List.replicate_succ]
      exact dropWhile_head_false p a _ h

theorem pyStrip_replicate (a : Char) (n : Nat) (h : a.isWhitespace = false) :
    pyStrip (String.mk (List.replicate n a)) = String.mk (List.replicate n a) := by
  unfold pyStrip
  rw [show (String.mk (List.replicate n a)).toList = List.replicate n a from rfl,
      dropWhile_replicate_self _ _ _ h, List.reverse_replicate,
      dropWhile_replicate_self _ _ _ h, List.reverse_replicate]

set_option maxRecDepth 8000 in
theorem c1_min_length :
    MIN_TEXT_LENGTH ≤ (pyStrip (String.mk (List.replicate 200 'a') ++
      "\n\n" ++ pyStrip (String.mk (List.replicate 3000 'b')))).length := by
  rw [pyStrip_replicate 'b' 3000 (by decide)]
  have happ : String.mk (List.replicate 200 'a') ++ "\n\n" ++
      String.mk (List.replicate 3000 'b') =
      String.mk (List.replicate 200 'a' ++
        ('\n' :: '\n' :: List.replicate 3000 'b')) := by
    have h1 : String.mk (List.replicate 200 'a') ++ "\n\n" =
        String.mk (List.replicate 200 'a' ++ ['\n', '\n']) := rfl
    rw [h1]
    rfl
  rw [happ]
  unfold pyStrip
  rw [show (String.mk (List.replicate 200 'a' ++
      ('\n' :: '\n' :: List.replicate 3000 'b'))).toList =
      List.replicate 200 'a' ++ ('\n' :: '\n' :: List.replicate 3000 'b')
      from rfl]
  rw [dropWhile_replicate_head _ _ _ _ (by decide) (by decide)]
  rw [show ('\n' :: '\n' :: List.replicate 3000 'b') =
      ['\n', '\n'] ++ List.replicate 3000 'b' from rfl]
  rw [show (String.mk (((List.replicate 200 'a' ++
      (['\n', '\n'] ++ List.replicate 3000 'b')).reverse.dropWhile
        Char.isWhitespace).reverse)).length =
      (((List.replicate 200 'a' ++ (['\n', '\n'] ++
        List.replicate 3000 'b')).reverse.dropWhile
          Char.isWhitespace).reverse).length from rfl]
  rw [List.length_reverse, List.reverse_append, List.reverse_append,
      List.reverse_replicate, List.reverse_replicate, List.append_assoc]
  rw [dropWhile_replicate_head _ _ _ _ (by decide) (by decide)]
  simp only [List.length_append, List.length_replicate, List.length_reverse,
    List.length_cons, List.length_nil, MIN_TEXT_LENGTH]
  omega

set_option maxRecDepth 4000 in
/-- C1 witness: scenario C with the Last-Modified of the PDF recent — the
3000-char PDF text is appended to the 200-char body and the combined
record passes the 600-char minimum. -/
theorem pdf_fallback_appends_witness :
    ∃ art, fetch_article_page "https://ex.org/item" {} c1_page c1_pdfOracle
        1000000 = .ok art ∧
      art.raw_text = pyStrip (c1_page.extractedText ++ "\n\n" ++
        pyStrip (String.mk (List.replicate 3000 'b'))) :=
  pdf_fallback_appends "https://ex.org/item" {} c1_page c1_pdfOracle 1000000
    "https://ex.org/doc.pdf" (String.mk (List.replicate 3000 'b'))
    rfl (by decide) (by decide) (by decide) rfl rfl rfl (by decide) rfl
    (by decide) (.inr (by decide)) c1_min_length

set_option maxRecDepth 4000 in
/-- C1 counterexample: same scenario — 200-char body, `pdf_chase` enabled,
linked PDF fetched with 200 and a PDF content type yielding 3000 chars of
text — but under the default `last_week_only = true` with no Last-Modified
on the PDF response, the text is NOT appended and the article is skipped
as too short instead of being persisted. -/
theorem pdf_fallback_not_appended :
    fetch_article_page "https://ex.org/item" {} c1_page c1_pdfOracleNoLM
      1000000 = .error Skip.tooShort := by decide

set_option maxRecDepth 8000 in
/-- C7: listing discovery applies, after fragment-stripping first-wins
dedup, the filter stages in order — (a) same-host, (b) non-English
segments, (c) allow-substrings, (d) deny-substrings (source plus baked-in
list), (e) bare navigational suffixes — then truncates to `max_links`
preserving order; the scenario A listing of 20 anchors with 8 allow-matching
anchors and `max_links = 12` yields exactly those 8 in DOM order. -/
theorem listing_filter_pipeline :
    (∀ anchors base_url cfg, parse_listing_html anchors base_url cfg =
      spec_listing_discovery anchors base_url cfg) ∧
    parse_listing_html c7_anchors "https://ex.org/newsroom" c7_cfg =
      c7_expected := by
  constructor
  · intro anchors base_url cfg
    rfl
  · decide

theorem fifteen_le_daysInMonth (y mo : Nat) : 15 ≤ daysInMonth y mo := by
  unfold daysInMonth
  split_ifs <;> norm_num

/-- C10: whenever the first URL-date regex matches with no day group, the
inferred date is the 15th of that month at UTC midnight (for any real
month 01-12 and year 20xx), not an unresolved date. -/
theorem url_month_pattern_gives_fifteenth (url : String) (y mo : Nat)
    (h : scanYMD url.toList = some (y, mo, none))
    (hy1 : 2000 ≤ y) (hy2 : y ≤ 2099)
    (hm1 : 1 ≤ mo) (hm2 : mo ≤ 12) :
    date_from_url_path url = some (mkUTCInstant y mo 15) := by
  have hv : validYMD y mo 15 = true := by
    simp only [validYMD, Bool.and_eq_true, decide_eq_true_eq]
    refine ⟨⟨⟨⟨⟨by omega, by omega⟩, by omega⟩, by omega⟩, by omega⟩,
      fifteen_le_daysInMonth y mo⟩
  unfold date_from_url_path
  rw [h]
  simp [hv]

set_option maxRecDepth 4000 in
/-- C10 witness: `/blog/2024/05/widget` has a month-only date pattern and
resolves to 2024-05-15 UTC midnight. -/
theorem url_month_pattern_gives_fifteenth_witness :
    scanYMD "https://example.com/blog/2024/05/widget".toList =
      some (2024, 5, none) ∧
    date_from_url_path "https://example.com/blog/2024/05/widget" =
      some (mkUTCInstant 2024 5 15) :=
  ⟨by decide,
   url_month_pattern_gives_fifteenth "https://example.com/blog/2024/05/widget"
     2024 5 (by decide) (by decide) (by decide) (by decide) (by decide)⟩
